import Mathlib

set_option maxRecDepth 40000

namespace Simli

/-- JSON values as exchanged with the upstream Simli service. Numbers are
modelled as integers; the endpoints under study never use fractional
numbers. -/
inductive Json where
  | null : Json
  | bool (b : Bool) : Json
  | num (n : Int) : Json
  | str (s : String) : Json
  | arr (elems : List Json) : Json
  | obj (fields : List (String × Json)) : Json

/-- Field lookup in a JSON object; none on non-objects and absent keys. -/
def Json.lookup (j : Json) (key : String) : Option Json :=
  match j with
  | .obj fields => List.lookup key fields
  | _ => none

/-- Read a JSON value as a string, as pydantic does for a `str` field. -/
def Json.asStr : Json → Option String
  | .str s => some s
  | _ => none

/-- Read a JSON value as an integer, as pydantic does for an `int` field. -/
def Json.asInt : Json → Option Int
  | .num n => some n
  | _ => none

/-- Validation of a required `str` field of a pydantic model. -/
def reqStrField (j : Json) (key : String) : Option String :=
  (j.lookup key).bind Json.asStr

/-- Validation of an `Optional[str]` pydantic field: an absent key or a null
value yields None, a string yields the string, any other value fails. -/
def optStrField (j : Json) (key : String) : Option (Option String) :=
  match j.lookup key with
  | none => some none
  | some .null => some none
  | some v => v.asStr.map some

/-- Validation of an `Optional[int]` pydantic field. -/
def optIntField (j : Json) (key : String) : Option (Option Int) :=
  match j.lookup key with
  | none => some none
  | some .null => some none
  | some v => v.asInt.map some

/-- Serialization of an `Optional[str]` field value (None becomes null). -/
def optStrJson : Option String → Json
  | none => .null
  | some s => .str s

/-- Serialization of an `Optional[int]` field value (None becomes null). -/
def optIntJson : Option Int → Json
  | none => .null
  | some n => .num n

/-- Model for one face option (class FaceOption, src/hello.py lines 29-34). -/
structure FaceOption where
  id : String
  name : String
  previewImage : String
  previewVideo : Option String
  createdAt : Option Int

/-- Pydantic validation of a JSON value against the FaceOption model:
id, name, previewImage are required strings; previewVideo, createdAt are
optional; unknown fields are ignored. -/
def FaceOption.validate (j : Json) : Option FaceOption := do
  let id ← reqStrField j "id"
  let name ← reqStrField j "name"
  let previewImage ← reqStrField j "previewImage"
  let previewVideo ← optStrField j "previewVideo"
  let createdAt ← optIntField j "createdAt"
  pure { id := id, name := name, previewImage := previewImage,
         previewVideo := previewVideo, createdAt := createdAt }

/-- FastAPI serialization of a FaceOption: every model field is emitted,
None fields as null. -/
def FaceOption.toJson (f : FaceOption) : Json :=
  .obj [("id", .str f.id), ("name", .str f.name),
        ("previewImage", .str f.previewImage),
        ("previewVideo", optStrJson f.previewVideo),
        ("createdAt", optIntJson f.createdAt)]

/-- Request model for agent creation with its field defaults
(class AgentCreate, src/hello.py lines 37-48). -/
structure AgentCreate where
  face_id : String
  name : String
  first_message : Option String := some "The first message you want the agent to say"
  prompt : Option String := some "The persona of the agent and the context of the conversation"
  voice_provider : Option String := none
  voice_id : Option String := none
  voice_model : Option String := none
  language : Option String := none
  llm_endpoint : Option String := none
  max_idle_time : Option Int := some 300
  max_session_length : Option Int := some 3600

/-- Response model for agent creation (class AgentResponse, src/hello.py
lines 50-53). -/
structure AgentResponse where
  id : String
  face_id : String
  name : String

/-- Request model for session-token creation (class SessionTokenRequest,
src/hello.py lines 56-58). -/
structure SessionTokenRequest where
  simliAPIKey : String
  ttsAPIKey : String

/-- Response model for session-token creation (class SessionTokenResponse,
src/hello.py lines 61-62). -/
structure SessionTokenResponse where
  session_token : String

/-- Pydantic validation of a JSON value against SessionTokenResponse:
session_token is a required string; unknown fields are ignored. -/
def SessionTokenResponse.validate (j : Json) : Option SessionTokenResponse :=
  (reqStrField j "session_token").map (fun t => { session_token := t })

/-- FastAPI serialization of a SessionTokenResponse. -/
def SessionTokenResponse.toJson (r : SessionTokenResponse) : Json :=
  .obj [("session_token", .str r.session_token)]

/-- Process-wide configuration: the two secrets resolved at startup plus the
warnings printed while resolving them. -/
structure Config where
  SIMLI_API_KEY : String
  TTS_API_KEY : String
  warnings : List String

/-- Truthiness of the Python test `not X` for an optional string: true for
None and for the empty string. -/
def pyFalsy : Option String → Bool
  | none => true
  | some s => s.isEmpty

/-- Startup configuration loading (src/hello.py lines 17-26): read the two
keys from the environment; when a key is missing (or empty) print a warning
and fall back to a hardcoded placeholder. The function is total: startup
never fails for any environment. -/
def loadConfig (envSIMLI envTTS : Option String) : Config :=
  let simliMissing := pyFalsy envSIMLI
  let ttsMissing := pyFalsy envTTS
  { SIMLI_API_KEY := if simliMissing then "YOUR_API_KEY_HERE" else envSIMLI.getD "",
    TTS_API_KEY := if ttsMissing then "YOUR_TTS_API_KEY_HERE" else envTTS.getD "",
    warnings :=
      (if simliMissing then
        ["Warning: SIMLI_API_KEY not found in environment variables. Using default value for testing."]
       else []) ++
      (if ttsMissing then
        ["Warning: TTS_API_KEY not found in environment variables. Using default value for testing."]
       else []) }

/-- An outbound HTTP call made by a handler through httpx. -/
inductive OutboundCall where
  | get (url : String) (headers : List (String × String)) : OutboundCall
  | post (url : String) (jsonBody : Json) : OutboundCall

/-- An upstream HTTP response: status code, raw body text, and the parsed
JSON body (as produced by response.json()). -/
structure UpstreamResponse where
  status_code : Nat
  text : String
  json : Json

/-- Result of one request handled by the FastAPI app: a success serialized
through the route's response model, a raised HTTPException (status code and
detail message), or a response-validation error when the value returned by
the handler does not fit the declared response model. -/
inductive HandlerResult where
  | success (status : Nat) (body : Json) : HandlerResult
  | httpError (status : Nat) (detail : String) : HandlerResult
  | validationError : HandlerResult

/-- Validation of every array element against FaceOption, as FastAPI does
for response_model=List[FaceOption]. -/
def validateFaceList : List Json → Option (List FaceOption)
  | [] => some []
  | j :: rest =>
    match FaceOption.validate j, validateFaceList rest with
    | some f, some fs => some (f :: fs)
    | _, _ => none

/-- Validation of the face-list handler's return value against
response_model=List[FaceOption] (non-arrays fail). -/
def validateFaces : Json → Option (List FaceOption)
  | .arr elems => validateFaceList elems
  | _ => none

/-- The upstream request issued by GET /api/faces (src/hello.py lines
70-72): a GET with the configured key in the api-key header. -/
def get_faces_request (cfg : Config) : OutboundCall :=
  .get "https://api.simli.ai/getFaceIDs?getPublic=false"
    [("api-key", cfg.SIMLI_API_KEY)]

/-- Handler of GET /api/faces (src/hello.py lines 65-78): forward a GET to
the Simli API; on a status other than 200 raise an HTTPException with the
upstream status and a detail embedding the upstream text; on 200 return the
parsed body serialized through response_model=List[FaceOption]. The result
pairs the list of outbound calls made with the HTTP outcome. -/
def get_faces (cfg : Config) (upstream : OutboundCall → UpstreamResponse) :
    List OutboundCall × HandlerResult :=
  let response := upstream (get_faces_request cfg)
  ([get_faces_request cfg],
    if response.status_code ≠ 200 then
      .httpError response.status_code
        ("Error fetching faces from Simli API: " ++ response.text)
    else
      match validateFaces response.json with
      | some faces => .success 200 (Json.arr (faces.map FaceOption.toJson))
      | none => .validationError)

/-- Python string slice s[:n]: the first n characters, or all of s when s is
shorter than n. -/
def pythonTake (s : String) (n : Nat) : String := String.mk (s.data.take n)

/-- Handler of POST /api/agent (src/hello.py lines 80-96): a pure function
of the request body; no outbound call is made (empty call list); responds
201 with id "agent-" ++ face_id[:8] and the input face_id and name echoed
back. -/
def create_agent (agent : AgentCreate)
    (_upstream : OutboundCall → UpstreamResponse) :
    List OutboundCall × (Nat × AgentResponse) :=
  ([], (201, { id := "agent-" ++ pythonTake agent.face_id 8,
               face_id := agent.face_id,
               name := agent.name }))

/-- The upstream request issued by POST /api/createE2ESessionToken
(src/hello.py lines 104-111): a POST whose JSON body holds exactly the two
caller-supplied keys. -/
def create_e2e_session_token_request (request : SessionTokenRequest) : OutboundCall :=
  .post "https://api.simli.ai/createE2ESessionToken"
    (Json.obj [("simliAPIKey", .str request.simliAPIKey),
               ("ttsAPIKey", .str request.ttsAPIKey)])

/-- Handler of POST /api/createE2ESessionToken (src/hello.py lines 98-119):
forward the two keys to the upstream endpoint; on a status other than 200
raise an HTTPException with the upstream status and a detail embedding the
upstream text; on 200 return the parsed body serialized through
response_model=SessionTokenResponse. -/
def create_e2e_session_token (request : SessionTokenRequest)
    (upstream : OutboundCall → UpstreamResponse) :
    List OutboundCall × HandlerResult :=
  let response := upstream (create_e2e_session_token_request request)
  ([create_e2e_session_token_request request],
    if response.status_code ≠ 200 then
      .httpError response.status_code
        ("Error creating session token: " ++ response.text)
    else
      match SessionTokenResponse.validate response.json with
      | some tok => .success 200 tok.toJson
      | none => .validationError)

/-- Python str.replace on character lists, for a nonempty pattern: scan left
to right, replace non-overlapping occurrences, never rescan a replacement. -/
def replaceL (pat rep : List Char) : List Char → List Char
  | [] => []
  | c :: s =>
    if pat.isPrefixOf (c :: s) then
      rep ++ replaceL pat rep (s.drop (pat.length - 1))
    else c :: replaceL pat rep s
termination_by s => s.length
decreasing_by
  · simp only [List.length_drop, List.length_cons]
    omega
  · simp

/-- Occurrence of pat as a contiguous substring, by the scan replaceL uses. -/
def containsSub (pat : List Char) : List Char → Bool
  | [] => pat.isEmpty
  | c :: s => pat.isPrefixOf (c :: s) || containsSub pat s

theorem isPrefixOf_nil_eq {pat : List Char} (h : pat ≠ []) :
    pat.isPrefixOf ([] : List Char) = false := by
  cases pat with
  | nil => exact absurd rfl h
  | cons p l => rfl

theorem isPrefixOf_append_self (l t : List Char) : l.isPrefixOf (l ++ t) = true := by
  induction l with
  | nil => simp [List.isPrefixOf]
  | cons a l ih => simp [List.isPrefixOf, ih]

/-- A match of pat cannot reach past a character c that pat does not
contain: matching at the head of X ++ c :: Y is matching at the head of X. -/
theorem isPrefixOf_append_cons_iff {pat : List Char} {c : Char} {X Y : List Char}
    (hc : c ∉ pat) : pat.isPrefixOf (X ++ c :: Y) = pat.isPrefixOf X := by
  induction pat generalizing X with
  | nil => simp [List.isPrefixOf]
  | cons p pat ih =>
    cases X with
    | nil =>
      have hpc : (p == c) = false := by
        simp only [beq_eq_false_iff_ne, ne_eq]
        intro h
        exact hc (by simp [h])
      simp [List.isPrefixOf, hpc]
    | cons x X =>
      have hc' : c ∉ pat := fun h => hc (List.mem_cons_of_mem _ h)
      simp only [List.cons_append, List.isPrefixOf, List.append_eq]
      rw [ih hc']

/-- containsSub on the empty pattern is always true. -/
theorem containsSub_nil_pat (Y : List Char) : containsSub [] Y = true := by
  cases Y <;> simp [containsSub, List.isPrefixOf]

/-- Splitting an occurrence scan at a barrier character not in the pattern. -/
theorem containsSub_append_cons {pat : List Char} {c : Char} (X Y : List Char)
    (hpat : pat ≠ []) (hc : c ∉ pat) :
    containsSub pat (X ++ c :: Y) = (containsSub pat X || containsSub pat Y) := by
  induction X with
  | nil =>
    have h0 : pat.isPrefixOf (([] : List Char) ++ c :: Y) = pat.isPrefixOf ([] : List Char) :=
      isPrefixOf_append_cons_iff hc
    simp only [List.nil_append] at h0
    have hie : pat.isEmpty = false := by
      cases pat with
      | nil => exact absurd rfl hpat
      | cons p l => rfl
    simp [containsSub, h0, isPrefixOf_nil_eq hpat, hie]
  | cons x X ih =>
    have h0 : pat.isPrefixOf ((x :: X) ++ c :: Y) = pat.isPrefixOf (x :: X) :=
      isPrefixOf_append_cons_iff hc
    simp only [List.cons_append] at h0 ⊢
    simp only [containsSub, h0, ih, Bool.or_assoc]

/-- The replacement scan copies a pattern-free region X and its trailing
barrier character unchanged. -/
theorem replaceL_append_cons {pat : List Char} (rep : List Char) {X : List Char}
    {c : Char} (R : List Char) (hpat : pat ≠ []) (hc : c ∉ pat)
    (hX : containsSub pat X = false) :
    replaceL pat rep (X ++ c :: R) = X ++ c :: replaceL pat rep R := by
  induction X with
  | nil =>
    have h0 : pat.isPrefixOf (c :: R) = false := by
      have h1 : pat.isPrefixOf (([] : List Char) ++ c :: R) = pat.isPrefixOf ([] : List Char) :=
        isPrefixOf_append_cons_iff hc
      simp only [List.nil_append] at h1
      rw [h1, isPrefixOf_nil_eq hpat]
    rw [List.nil_append, replaceL, h0]
    simp
  | cons x X ih =>
    have hX' : (pat.isPrefixOf (x :: X) = false) ∧ containsSub pat X = false := by
      simpa [containsSub, Bool.or_eq_false_iff] using hX
    have h0 : pat.isPrefixOf ((x :: X) ++ c :: R) = false := by
      rw [isPrefixOf_append_cons_iff hc]
      exact hX'.1
    simp only [List.cons_append] at h0 ⊢
    rw [replaceL, h0]
    simp only [Bool.false_eq_true, if_false, List.cons_append]
    exact congrArg (x :: ·) (ih hX'.2)

/-- The replacement scan leaves a pattern-free string unchanged. -/
theorem replaceL_of_not_contains {pat : List Char} (rep : List Char) {X : List Char}
    (hX : containsSub pat X = false) : replaceL pat rep X = X := by
  induction X with
  | nil => rw [replaceL]
  | cons x X ih =>
    have hX' : (pat.isPrefixOf (x :: X) = false) ∧ containsSub pat X = false := by
      simpa [containsSub, Bool.or_eq_false_iff] using hX
    rw [replaceL, hX'.1]
    simp only [Bool.false_eq_true, if_false]
    exact congrArg (x :: ·) (ih hX'.2)

/-- The replacement scan rewrites a pattern occurrence at the head and
continues after it, never rescanning the replacement. -/
theorem replaceL_head_match {p : Char} {pat : List Char} (rep R : List Char) :
    replaceL (p :: pat) rep ((p :: pat) ++ R) = rep ++ replaceL (p :: pat) rep R := by
  have h0 : (p :: pat).isPrefixOf (p :: (pat ++ R)) = true :=
    isPrefixOf_append_self (p :: pat) R
  rw [List.cons_append, replaceL, h0]
  simp [List.drop_left]

/-- Version of replaceL_head_match for a pattern given as a plain list. -/
theorem replaceL_self_append {pat : List Char} (hpat : pat ≠ []) (rep R : List Char) :
    replaceL pat rep (pat ++ R) = rep ++ replaceL pat rep R := by
  cases pat with
  | nil => exact absurd rfl hpat
  | cons p pat => exact replaceL_head_match rep R

/-- The replacement scan copies a barrier character at the head unchanged. -/
theorem replaceL_cons_barrier {pat : List Char} (rep : List Char) {c : Char}
    (R : List Char) (hpat : pat ≠ []) (hc : c ∉ pat) :
    replaceL pat rep (c :: R) = c :: replaceL pat rep R := by
  have hnil : containsSub pat ([] : List Char) = false := by
    cases pat with
    | nil => exact absurd rfl hpat
    | cons p l => rfl
  have h0 := replaceL_append_cons rep R hpat hc hnil
  simpa using h0

/-- Any string of the form X ++ pat ++ Y contains pat. -/
theorem containsSub_append_self (pat X Y : List Char) :
    containsSub pat (X ++ pat ++ Y) = true := by
  induction X with
  | nil =>
    cases pat with
    | nil => simpa using containsSub_nil_pat Y
    | cons p pat =>
      simp only [List.nil_append, List.cons_append, containsSub]
      have h0 : (p :: pat).isPrefixOf (p :: (pat ++ Y)) = true :=
        isPrefixOf_append_self (p :: pat) Y
      simp [h0]
  | cons x X ih =>
    have hstep : (x :: X) ++ pat ++ Y = x :: (X ++ pat ++ Y) := by simp
    rw [hstep, containsSub, ih, Bool.or_true]

/-- Newline character, used as a harmless split point inside template
segments (it occurs in neither placeholder). -/
def nl : Char := Char.ofNat 10

/-- Double-quote character: the delimiter around the first two placeholder
occurrences in the template. -/
def dq : Char := Char.ofNat 34

/-- Single-quote character: the delimiter around the third placeholder
occurrence in the template. -/
def sq : Char := Char.ofNat 39

/-- The first textual placeholder replaced in get_html. -/
def simliPat : String := "SIMLI_API_KEY"

/-- The second textual placeholder replaced in get_html. -/
def ttsPat : String := "TTS_API_KEY"

/-- Chunk 1 of template segment segA of the HTML literal in get_html (src/hello.py). -/
def segA1 : String :=
  "\n    <!DOCTYPE html>\n    <html>\n    <head>\n        <title>Simli Face Selection</title>\n        <style>\n            body \x7b\n                font-family: Arial, sans-serif;\n                max-width: 1200px;\n                margin: 0 auto;\n                padding: 20px;\n                background-color: #f9f9f9;\n            \x7d\n            h1 \x7b\n                color: #333;\n                text-align: center;\n                margin-bottom: 30px;\n            \x7d\n            .container \x7b\n                display: flex;\n                flex-direction: column;\n                gap: 20px;\n            \x7d\n            .two-column \x7b\n                display: flex;\n                gap: 20px;\n            \x7d\n            .left-column \x7b\n                flex: 1;\n            \x7d\n            .right-column \x7b\n                flex: 1;\n            \x7d\n            .selection-container, .form-container, .session-container \x7b\n                background-color: white;\n                border-radius: 8px;\n                padding: 20px;\n                box-shadow: 0 2px 4px rgba(0,0,0,0.1);\n                margin-bottom: 20px;\n            \x7d\n            \n            .form-group \x7b\n                margin-bottom: 15px;\n            \x7d\n            \n            label \x7b\n                display: block;\n                margin-bottom: 5px;\n                font-weight: bold;\n            \x7d\n            \n            input, select, textarea \x7b\n                width: 100%;\n                padding: 10px;\n                border: 1px solid #ddd;\n                border-radius: 4px;\n                font-size: 14px;\n            \x7d\n            \n            textarea \x7b\n                min-height: 80px;\n                resize: vertical;\n            \x7d\n            \n            .required-field::after \x7b\n                content: \" *\";\n                color: #c62828;\n            \x7d\n            \n            .submit-button \x7b\n                background-color: #4CAF50;\n                color: white;\n                border: none;\n                padding: 12px 20px;\n                border-radius: 4px;\n                cursor: pointer;\n                font-size: 16px;\n                margin-top: 15px;\n            \x7d\n            \n            .success-container \x7b\n                background-color: #e8f5e9;\n                border-left: 4px solid #4CAF50;\n                padding: 15px;\n                margin-top: 20px;\n                border-radius: 4px;\n            \x7d\n            \n            .agent-details, .token-details \x7b\n                margin-top: 10px;\n                background-color: #f5f5f5;\n                padding: 15px;\n                border-radius: 4px;\n                font-family: monospace;\n            \x7d\n            \n            .agent-id, .token-value \x7b\n                font-weight: bold;\n                color: #2e7d32;"

/-- Chunk 2 of template segment segA of the HTML literal in get_html (src/hello.py). -/
def segA2 : String :=
  "                word-break: break-all;\n            \x7d\n            \n            .copy-button \x7b\n                background-color: #2196F3;\n                color: white;\n                border: none;\n                padding: 5px 10px;\n                border-radius: 4px;\n                cursor: pointer;\n                font-size: 12px;\n                margin-left: 10px;\n            \x7d\n            \n            .copy-button:hover \x7b\n                background-color: #0b7dda;\n            \x7d\n            select \x7b\n                width: 100%;\n                padding: 12px;\n                margin-bottom: 20px;\n                border-radius: 4px;\n                border: 1px solid #ddd;\n                font-size: 16px;\n            \x7d\n            .faces-grid \x7b\n                display: flex;\n                justify-content: center;\n                margin-top: 20px;\n                flex-wrap: wrap;\n                gap: 20px;\n            \x7d\n            .face-card \x7b\n                width: 300px;\n                border: 1px solid #eee;\n                border-radius: 8px;\n                overflow: hidden;\n                box-shadow: 0 2px 8px rgba(0,0,0,0.1);\n                transition: transform 0.2s, box-shadow 0.2s;\n                cursor: pointer;\n            \x7d\n            .face-card:hover \x7b\n                transform: translateY(-5px);\n                box-shadow: 0 5px 15px rgba(0,0,0,0.1);\n            \x7d\n            .face-card.selected \x7b\n                border: 3px solid #4CAF50;\n            \x7d\n            .face-image \x7b\n                width: 100%;\n                height: 200px;\n                object-fit: cover;\n            \x7d\n            .face-info \x7b\n                padding: 15px;\n            \x7d\n            .face-name \x7b\n                font-weight: bold;\n                font-size: 18px;\n                margin-bottom: 5px;\n            \x7d\n            .face-id \x7b\n                color: #777;\n                font-size: 12px;\n                word-break: break-all;\n            \x7d\n            .loading \x7b\n                text-align: center;\n                padding: 40px;\n                font-size: 18px;\n                color: #666;\n            \x7d\n            .error \x7b\n                background-color: #ffebee;\n                color: #c62828;\n                padding: 15px;\n                border-radius: 4px;\n                margin-bottom: 20px;\n                text-align: center;\n            \x7d\n            .video-container \x7b\n                margin-top: 30px;\n                background-color: white;\n                border-radius: 8px;\n                padding: 20px;\n                box-shadow: 0 2px 4px rgba(0,0,0,0.1);\n            \x7d\n            video \x7b\n                max-width: 100%;\n                border-radius: 4px;\n            \x7d\n        </style>\n    </head>\n    <body>"

/-- Chunk 3 of template segment segA of the HTML literal in get_html (src/hello.py). -/
def segA3 : String :=
  "        <h1>Simli Face Selection</h1>\n        \n        <div class=\"container\">\n            <div id=\"error\" class=\"error\" style=\"display: none;\"></div>\n            \n            <div class=\"two-column\">\n                <div class=\"left-column\">\n                    <div class=\"form-container\">\n                        <h2>Create Agent</h2>\n                        <form id=\"agentForm\">\n                            <input type=\"hidden\" id=\"face_id\" name=\"face_id\" value=\"\">\n                            \n                            <div class=\"form-group\">\n                                <label for=\"name\" class=\"required-field\">Name</label>\n                                <input type=\"text\" id=\"name\" name=\"name\" value=\"Untitled Agent\" required>\n                            </div>\n                            \n                            <div class=\"form-group\">\n                                <label for=\"first_message\">First Message</label>\n                                <textarea id=\"first_message\" name=\"first_message\">The first message you want the agent to say</textarea>\n                            </div>\n                            \n                            <div class=\"form-group\">\n                                <label for=\"prompt\">Prompt</label>\n                                <textarea id=\"prompt\" name=\"prompt\">The persona of the agent and the context of the conversation</textarea>\n                            </div>\n                            \n                            <div class=\"form-group\">\n                                <label for=\"voice_provider\">Voice Provider</label>\n                                <select id=\"voice_provider\" name=\"voice_provider\">\n                                    <option value=\"elevenlabs\">Elevenlabs</option>\n                                    <option value=\"cartesia\">Cartesia</option>\n                                </select>\n                            </div>\n                            \n                            <div class=\"form-group\">\n                                <label for=\"voice_id\">Voice ID</label>\n                                <input type=\"text\" id=\"voice_id\" name=\"voice_id\">\n                            </div>\n                            \n                            <div class=\"form-group\">\n                                <label for=\"voice_model\">Voice Model</label>\n                                <input type=\"text\" id=\"voice_model\" name=\"voice_model\" placeholder=\"e.g., sonic-english\">\n                            </div>\n                            \n                            <div class=\"form-group\">\n                                <label for=\"language\">Language</label>\n                                <input type=\"text\" id=\"language\" name=\"language\">\n                            </div>"

/-- Chunk 4 of template segment segA of the HTML literal in get_html (src/hello.py). -/
def segA4 : String :=
  "                            \n                            <div class=\"form-group\">\n                                <label for=\"llm_endpoint\">LLM Endpoint</label>\n                                <input type=\"text\" id=\"llm_endpoint\" name=\"llm_endpoint\">\n                            </div>\n                            \n                            <div class=\"form-group\">\n                                <label for=\"max_idle_time\">Max Idle Time (seconds)</label>\n                                <input type=\"number\" id=\"max_idle_time\" name=\"max_idle_time\" value=\"300\">\n                            </div>\n                            \n                            <div class=\"form-group\">\n                                <label for=\"max_session_length\">Max Session Length (seconds)</label>\n                                <input type=\"number\" id=\"max_session_length\" name=\"max_session_length\" value=\"3600\">\n                            </div>\n                            \n                            <button type=\"submit\" class=\"submit-button\">Create Agent</button>\n                        </form>\n                        \n                        <div id=\"successContainer\" class=\"success-container\" style=\"display: none;\">\n                            <h3>Agent Created Successfully!</h3>\n                            <p>Your agent has been created with the following details:</p>\n                            <div id=\"agentDetails\" class=\"agent-details\">\n                                <div>Name: <span id=\"createdAgentName\"></span></div>\n                                <div>Face ID: <span id=\"createdAgentFaceId\"></span></div>\n                                <div>Agent ID: <span id=\"createdAgentId\" class=\"agent-id\"></span> \n                                    <button onclick=\"copyAgentId()\" class=\"copy-button\">Copy ID</button>\n                                </div>\n                            </div>\n                        </div>\n                    </div>\n                </div>\n                \n                <div class=\"right-column\">\n                    <div class=\"selection-container\">\n                        <h2>Select a Face</h2>\n                        <select id=\"faceSelect\" onchange=\"updateSelectedFace()\">\n                            <option value=\"\">Select a face...</option>\n                        </select>\n                        \n                        <div id=\"loading\" class=\"loading\">Loading faces...</div>\n                        <div id=\"facesGrid\" class=\"faces-grid\"></div>\n                    </div>\n                </div>\n            </div>\n            \n            <div id=\"videoPreview\" class=\"video-container\" style=\"display: none;\">\n                <h2>Video Preview</h2>\n                <video id=\"videoPlayer\" controls autoplay loop muted></video>"

/-- Chunk 5 of template segment segA of the HTML literal in get_html (src/hello.py). -/
def segA5 : String :=
  "            </div>\n            \n            <!-- New session token section -->\n            <div class=\"session-container\">\n                <h2>Create E2E Session Token</h2>\n                <form id=\"sessionTokenForm\">\n                    <div class=\"form-group\">\n                        <label for=\"simliAPIKey\">Simli API Key</label>\n                        <input type=\"text\" id=\"simliAPIKey\" name=\"simliAPIKey\" value="

/-- Character data of template segment segA (chunks joined by their newline separators). -/
def segAd : List Char := segA1.data ++ nl :: segA2.data ++ nl :: segA3.data ++ nl :: segA4.data ++ nl :: segA5.data

/-- Chunk 1 of template segment segB of the HTML literal in get_html (src/hello.py). -/
def segB1 : String :=
  ">\n                    </div>\n                    \n                    <div class=\"form-group\">\n                        <label for=\"ttsAPIKey\">TTS API Key</label>\n                        <input type=\"text\" id=\"ttsAPIKey\" name=\"ttsAPIKey\" value="

/-- Character data of template segment segB (chunks joined by their newline separators). -/
def segBd : List Char := segB1.data

/-- Chunk 1 of template segment segC of the HTML literal in get_html (src/hello.py). -/
def segC1 : String :=
  ">\n                    </div>\n                    \n                    <button type=\"submit\" class=\"submit-button\">Create Session Token</button>\n                </form>\n                \n                <div id=\"tokenSuccessContainer\" class=\"success-container\" style=\"display: none;\">\n                    <h3>Session Token Created Successfully!</h3>\n                    <div id=\"tokenDetails\" class=\"token-details\">\n                        <div>Token: <span id=\"createdToken\" class=\"token-value\"></span> \n                            <button onclick=\"copyToken()\" class=\"copy-button\">Copy Token</button>\n                        </div>\n                    </div>\n                </div>\n            </div>\n        </div>\n\n        <script>\n            // Global variables\n            let faces = [];\n            let selectedFaceId = \x27\x27;\n            \n            // API endpoint for agent creation\n            const CREATE_AGENT_ENDPOINT = \"https://api.simli.ai/agent\";\n            \n            // DOM Elements\n            const faceSelect = document.getElementById(\x27faceSelect\x27);\n            const facesGrid = document.getElementById(\x27facesGrid\x27);\n            const loadingElement = document.getElementById(\x27loading\x27);\n            const errorElement = document.getElementById(\x27error\x27);\n            const videoPreview = document.getElementById(\x27videoPreview\x27);\n            const videoPlayer = document.getElementById(\x27videoPlayer\x27);\n            const agentForm = document.getElementById(\x27agentForm\x27);\n            const faceIdInput = document.getElementById(\x27face_id\x27);\n            const successContainer = document.getElementById(\x27successContainer\x27);\n            const createdAgentName = document.getElementById(\x27createdAgentName\x27);\n            const createdAgentFaceId = document.getElementById(\x27createdAgentFaceId\x27);\n            const createdAgentId = document.getElementById(\x27createdAgentId\x27);\n            \n            // Session token elements\n            const sessionTokenForm = document.getElementById(\x27sessionTokenForm\x27);\n            const tokenSuccessContainer = document.getElementById(\x27tokenSuccessContainer\x27);\n            const createdToken = document.getElementById(\x27createdToken\x27);\n            \n            // Load faces on page load\n            document.addEventListener(\x27DOMContentLoaded\x27, loadFaces);\n            \n            // Add form submission handlers\n            agentForm.addEventListener(\x27submit\x27, submitAgentForm);\n            sessionTokenForm.addEventListener(\x27submit\x27, submitSessionTokenForm);\n            \n            // Functions to interact with the API\n            async function loadFaces() \x7b\n                try \x7b\n                    showLoading(true);\n                    const response = await fetch(\x27/api/faces\x27);\n                    "

/-- Chunk 2 of template segment segC of the HTML literal in get_html (src/hello.py). -/
def segC2 : String :=
  "                    if (!response.ok) \x7b\n                        throw new Error(\x60API error: $\x7bresponse.status\x7d $\x7bresponse.statusText\x7d\x60);\n                    \x7d\n                    \n                    faces = await response.json();\n                    \n                    if (!faces || faces.length === 0) \x7b\n                        showError(\x27No faces available. Please check your API key and try again.\x27);\n                        return;\n                    \x7d\n                    \n                    // Populate dropdown and face cards\n                    populateFaceOptions(faces);\n                    createFaceCards(faces);\n                    \n                    showLoading(false);\n                \x7d catch (error) \x7b\n                    console.error(\x27Error loading faces:\x27, error);\n                    showError(\x60Failed to load faces: $\x7berror.message\x7d\x60);\n                    showLoading(false);\n                \x7d\n            \x7d\n            \n            function populateFaceOptions(faces) \x7b\n                // Clear existing options\n                faceSelect.innerHTML = \x27<option value=\"\">Select a face...</option>\x27;\n                \n                // Add new options\n                faces.forEach(face => \x7b\n                    const option = document.createElement(\x27option\x27);\n                    option.value = face.id;\n                    option.textContent = face.name;\n                    faceSelect.appendChild(option);\n                \x7d);\n            \x7d\n            \n            function createFaceCards(faces) \x7b\n                facesGrid.innerHTML = \x27\x27;\n                \n                faces.forEach(face => \x7b\n                    const card = document.createElement(\x27div\x27);\n                    card.className = \x27face-card\x27;\n                    card.dataset.id = face.id;\n                    card.onclick = () => selectFace(face.id);\n                    \n                    card.innerHTML = \x60\n                        <img src=\"$\x7bface.previewImage\x7d\" alt=\"$\x7bface.name\x7d\" class=\"face-image\" onerror=\"this.src=\x27https://via.placeholder.com/300x200?text=Image+Not+Available\x27\">\n                        <div class=\"face-info\">\n                            <div class=\"face-name\">$\x7bface.name\x7d</div>\n                            <div class=\"face-id\">$\x7bface.id\x7d</div>\n                        </div>\n                    \x60;\n                    \n                    facesGrid.appendChild(card);\n                \x7d);\n            \x7d\n            \n            function selectFace(faceId) \x7b\n                selectedFaceId = faceId;\n                \n                // Update dropdown\n                faceSelect.value = faceId;\n                \n                // Update hidden form field\n                faceIdInput.value = faceId;\n                \n                // Update card selection"

/-- Chunk 3 of template segment segC of the HTML literal in get_html (src/hello.py). -/
def segC3 : String :=
  "                document.querySelectorAll(\x27.face-card\x27).forEach(card => \x7b\n                    if (card.dataset.id === faceId) \x7b\n                        card.classList.add(\x27selected\x27);\n                    \x7d else \x7b\n                        card.classList.remove(\x27selected\x27);\n                    \x7d\n                \x7d);\n                \n                // Find the selected face\n                const selectedFace = faces.find(face => face.id === faceId);\n                \n                // Update video preview\n                if (selectedFace && selectedFace.previewVideo) \x7b\n                    videoPlayer.src = selectedFace.previewVideo;\n                    videoPreview.style.display = \x27block\x27;\n                    \n                    // Automatically scroll to video preview\n                    setTimeout(() => \x7b\n                        videoPreview.scrollIntoView(\x7b behavior: \x27smooth\x27, block: \x27start\x27 \x7d);\n                    \x7d, 100);\n                \x7d else \x7b\n                    videoPreview.style.display = \x27none\x27;\n                \x7d\n            \x7d\n            \n            function updateSelectedFace() \x7b\n                const faceId = faceSelect.value;\n                if (faceId) \x7b\n                    selectFace(faceId);\n                \x7d\n            \x7d\n            \n            function showLoading(isLoading) \x7b\n                loadingElement.style.display = isLoading ? \x27block\x27 : \x27none\x27;\n            \x7d\n            \n            function showError(message) \x7b\n                errorElement.textContent = message;\n                errorElement.style.display = message ? \x27block\x27 : \x27none\x27;\n            \x7d\n            \n            async function submitAgentForm(e) \x7b\n                e.preventDefault();\n                \n                // Hide success message if shown previously\n                successContainer.style.display = \x27none\x27;\n                \n                // Validate that a face is selected\n                if (!selectedFaceId) \x7b\n                    showError(\x27Please select a face before creating an agent\x27);\n                    return;\n                \x7d\n                \n                // Get form data\n                const formData = new FormData(agentForm);\n                const agentData = \x7b\x7d;\n                \n                // Convert FormData to JSON object\n                for (const [key, value] of formData.entries()) \x7b\n                    // Convert numeric values to numbers\n                    if (key === \x27max_idle_time\x27 || key === \x27max_session_length\x27) \x7b\n                        agentData[key] = parseInt(value);\n                    \x7d else \x7b\n                        agentData[key] = value;\n                    \x7d\n                \x7d\n                \n                try \x7b\n                    const response = await fetch(CREATE_AGENT_ENDPOINT, \x7b"

/-- Chunk 4 of template segment segC of the HTML literal in get_html (src/hello.py). -/
def segC4 : String :=
  "                        method: \x27POST\x27,\n                        headers: \x7b\n                            \x27Content-Type\x27: \x27application/json\x27,\n                            \x27x-simli-api-key\x27: "

/-- Character data of template segment segC (chunks joined by their newline separators). -/
def segCd : List Char := segC1.data ++ nl :: segC2.data ++ nl :: segC3.data ++ nl :: segC4.data

/-- Chunk 1 of template segment segD of the HTML literal in get_html (src/hello.py). -/
def segD1 : String :=
  " // Assuming you need the same API key\n                        \x7d,\n                        body: JSON.stringify(agentData)\n                    \x7d);\n                    \n                    if (!response.ok) \x7b\n                        const errorData = await response.json();\n                        throw new Error(errorData.detail || \x27Failed to create agent\x27);\n                    \x7d\n                    \n                    const createdAgent = await response.json();\n                    \n                    // Display success message with agent details\n                    createdAgentName.textContent = createdAgent.name;\n                    createdAgentFaceId.textContent = createdAgent.face_id;\n                    createdAgentId.textContent = createdAgent.id;\n                    successContainer.style.display = \x27block\x27;\n                    \n                    // Scroll to success message\n                    successContainer.scrollIntoView(\x7b behavior: \x27smooth\x27, block: \x27start\x27 \x7d);\n                    \n                \x7d catch (error) \x7b\n                    console.error(\x27Error creating agent:\x27, error);\n                    showError(\x60Failed to create agent: $\x7berror.message\x7d\x60);\n                \x7d\n            \x7d\n            \n            async function submitSessionTokenForm(e) \x7b\n                e.preventDefault();\n                \n                // Hide token success message if shown previously\n                tokenSuccessContainer.style.display = \x27none\x27;\n                \n                // Get form data\n                const formData = new FormData(sessionTokenForm);\n                const tokenData = \x7b\x7d;\n                \n                // Convert FormData to JSON object\n                for (const [key, value] of formData.entries()) \x7b\n                    tokenData[key] = value;\n                \x7d\n                \n                try \x7b\n                    const response = await fetch(\x27/api/createE2ESessionToken\x27, \x7b\n                        method: \x27POST\x27,\n                        headers: \x7b\n                            \x27Content-Type\x27: \x27application/json\x27\n                        \x7d,\n                        body: JSON.stringify(tokenData)\n                    \x7d);\n                    \n                    if (!response.ok) \x7b\n                        const errorData = await response.json();\n                        throw new Error(errorData.detail || \x27Failed to create session token\x27);\n                    \x7d\n                    \n                    const result = await response.json();\n                    console.log(result);\n                    // Display success message with token\n                    createdToken.textContent = result.session_token;\n                    tokenSuccessContainer.style.display = \x27block\x27;\n                    "

/-- Chunk 2 of template segment segD of the HTML literal in get_html (src/hello.py). -/
def segD2 : String :=
  "                    // Scroll to token success message\n                    tokenSuccessContainer.scrollIntoView(\x7b behavior: \x27smooth\x27, block: \x27start\x27 \x7d);\n                    \n                \x7d catch (error) \x7b\n                    console.error(\x27Error creating session token:\x27, error);\n                    showError(\x60Failed to create session token: $\x7berror.message\x7d\x60);\n                \x7d\n            \x7d\n            \n            function copyAgentId() \x7b\n                const agentId = createdAgentId.textContent;\n                navigator.clipboard.writeText(agentId)\n                    .then(() => \x7b\n                        alert(\x27Agent ID copied to clipboard!\x27);\n                    \x7d)\n                    .catch(err => \x7b\n                        console.error(\x27Could not copy text: \x27, err);\n                    \x7d);\n            \x7d\n            \n            function copyToken() \x7b\n                const token = createdToken.textContent;\n                navigator.clipboard.writeText(token)\n                    .then(() => \x7b\n                        alert(\x27Session token copied to clipboard!\x27);\n                    \x7d)\n                    .catch(err => \x7b\n                        console.error(\x27Could not copy text: \x27, err);\n                    \x7d);\n            \x7d\n        </script>\n    </body>\n    </html>\n    "

/-- Character data of template segment segD (chunks joined by their newline separators). -/
def segDd : List Char := segD1.data ++ nl :: segD2.data

/-- Character data of the HTML template literal of get_html (src/hello.py
lines 124-719): the four placeholder-free segments with the three
placeholder occurrences and their quote delimiters between them. -/
def tplData : List Char :=
  segAd ++ dq :: simliPat.data ++ dq :: segBd ++ dq :: ttsPat.data ++ dq :: segCd
    ++ sq :: simliPat.data ++ sq :: segDd

/-- The HTML template literal of get_html as a string. -/
def html_template : String := String.mk tplData

/-- Python str.replace on strings (nonempty pattern). -/
def pyReplace (s old new : String) : String :=
  String.mk (replaceL old.data new.data s.data)

/-- Handler of GET / (src/hello.py lines 122-719): respond 200 with the
template after substituting the configured SIMLI key for every occurrence of
"SIMLI_API_KEY" and then the configured TTS key for every occurrence of
"TTS_API_KEY". -/
def get_html (cfg : Config) : Nat × String :=
  (200, pyReplace (pyReplace html_template "SIMLI_API_KEY" cfg.SIMLI_API_KEY)
          "TTS_API_KEY" cfg.TTS_API_KEY)

/-- Substring test on strings (needle occurs contiguously in hay). -/
def strContains (hay needle : String) : Bool := containsSub needle.data hay.data

theorem simliPat_ne_nil : simliPat.data ≠ [] := by decide

theorem ttsPat_ne_nil : ttsPat.data ≠ [] := by decide

theorem nl_not_mem_simliPat : nl ∉ simliPat.data := by decide

theorem dq_not_mem_simliPat : dq ∉ simliPat.data := by decide

theorem sq_not_mem_simliPat : sq ∉ simliPat.data := by decide

theorem nl_not_mem_ttsPat : nl ∉ ttsPat.data := by decide

theorem dq_not_mem_ttsPat : dq ∉ ttsPat.data := by decide

theorem sq_not_mem_ttsPat : sq ∉ ttsPat.data := by decide

theorem noSimli_ttsPat : containsSub simliPat.data ttsPat.data = false := by decide

theorem noSimli_segA1 : containsSub simliPat.data segA1.data = false := by decide

theorem noSimli_segA2 : containsSub simliPat.data segA2.data = false := by decide

theorem noSimli_segA3 : containsSub simliPat.data segA3.data = false := by decide

theorem noSimli_segA4 : containsSub simliPat.data segA4.data = false := by decide

theorem noSimli_segA5 : containsSub simliPat.data segA5.data = false := by decide

theorem noSimli_segAd : containsSub simliPat.data segAd = false := by
  unfold segAd
  rw [containsSub_append_cons _ _ simliPat_ne_nil nl_not_mem_simliPat,
      containsSub_append_cons _ _ simliPat_ne_nil nl_not_mem_simliPat,
      containsSub_append_cons _ _ simliPat_ne_nil nl_not_mem_simliPat,
      containsSub_append_cons _ _ simliPat_ne_nil nl_not_mem_simliPat,
      noSimli_segA1, noSimli_segA2, noSimli_segA3, noSimli_segA4, noSimli_segA5]
  rfl

theorem noSimli_segB1 : containsSub simliPat.data segB1.data = false := by decide

theorem noSimli_segBd : containsSub simliPat.data segBd = false := noSimli_segB1

theorem noSimli_segC1 : containsSub simliPat.data segC1.data = false := by decide

theorem noSimli_segC2 : containsSub simliPat.data segC2.data = false := by decide

theorem noSimli_segC3 : containsSub simliPat.data segC3.data = false := by decide

theorem noSimli_segC4 : containsSub simliPat.data segC4.data = false := by decide

theorem noSimli_segCd : containsSub simliPat.data segCd = false := by
  unfold segCd
  rw [containsSub_append_cons _ _ simliPat_ne_nil nl_not_mem_simliPat,
      containsSub_append_cons _ _ simliPat_ne_nil nl_not_mem_simliPat,
      containsSub_append_cons _ _ simliPat_ne_nil nl_not_mem_simliPat,
      noSimli_segC1, noSimli_segC2, noSimli_segC3, noSimli_segC4]
  rfl

theorem noSimli_segD1 : containsSub simliPat.data segD1.data = false := by decide

theorem noSimli_segD2 : containsSub simliPat.data segD2.data = false := by decide

theorem noSimli_segDd : containsSub simliPat.data segDd = false := by
  unfold segDd
  rw [containsSub_append_cons _ _ simliPat_ne_nil nl_not_mem_simliPat,
      noSimli_segD1, noSimli_segD2]
  rfl

theorem noTts_segA1 : containsSub ttsPat.data segA1.data = false := by decide

theorem noTts_segA2 : containsSub ttsPat.data segA2.data = false := by decide

theorem noTts_segA3 : containsSub ttsPat.data segA3.data = false := by decide

theorem noTts_segA4 : containsSub ttsPat.data segA4.data = false := by decide

theorem noTts_segA5 : containsSub ttsPat.data segA5.data = false := by decide

theorem noTts_segAd : containsSub ttsPat.data segAd = false := by
  unfold segAd
  rw [containsSub_append_cons _ _ ttsPat_ne_nil nl_not_mem_ttsPat,
      containsSub_append_cons _ _ ttsPat_ne_nil nl_not_mem_ttsPat,
      containsSub_append_cons _ _ ttsPat_ne_nil nl_not_mem_ttsPat,
      containsSub_append_cons _ _ ttsPat_ne_nil nl_not_mem_ttsPat,
      noTts_segA1, noTts_segA2, noTts_segA3, noTts_segA4, noTts_segA5]
  rfl

theorem noTts_segB1 : containsSub ttsPat.data segB1.data = false := by decide

theorem noTts_segBd : containsSub ttsPat.data segBd = false := noTts_segB1

theorem noTts_segC1 : containsSub ttsPat.data segC1.data = false := by decide

theorem noTts_segC2 : containsSub ttsPat.data segC2.data = false := by decide

theorem noTts_segC3 : containsSub ttsPat.data segC3.data = false := by decide

theorem noTts_segC4 : containsSub ttsPat.data segC4.data = false := by decide

theorem noTts_segCd : containsSub ttsPat.data segCd = false := by
  unfold segCd
  rw [containsSub_append_cons _ _ ttsPat_ne_nil nl_not_mem_ttsPat,
      containsSub_append_cons _ _ ttsPat_ne_nil nl_not_mem_ttsPat,
      containsSub_append_cons _ _ ttsPat_ne_nil nl_not_mem_ttsPat,
      noTts_segC1, noTts_segC2, noTts_segC3, noTts_segC4]
  rfl

theorem noTts_segD1 : containsSub ttsPat.data segD1.data = false := by decide

theorem noTts_segD2 : containsSub ttsPat.data segD2.data = false := by decide

theorem noTts_segDd : containsSub ttsPat.data segDd = false := by
  unfold segDd
  rw [containsSub_append_cons _ _ ttsPat_ne_nil nl_not_mem_ttsPat,
      noTts_segD1, noTts_segD2]
  rfl


/-- Round trip: serializing a FaceOption and validating it again is the
identity. -/
theorem FaceOption.validate_toJson (f : FaceOption) :
    FaceOption.validate f.toJson = some f := by
  cases f with
  | mk id name previewImage previewVideo createdAt =>
    cases previewVideo <;> cases createdAt <;> rfl

/-- Round trip for a whole list of faces. -/
theorem validateFaceList_map_toJson (faces : List FaceOption) :
    validateFaceList (faces.map FaceOption.toJson) = some faces := by
  induction faces with
  | nil => rfl
  | cons f fs ih => simp [List.map_cons, validateFaceList, FaceOption.validate_toJson, ih]

/-- A string occurs as a substring of any string it suffixes. -/
theorem strContains_append (p t : String) : strContains (p ++ t) t = true := by
  show containsSub t.data (p ++ t).data = true
  have h : (p ++ t).data = p.data ++ t.data ++ [] := by simp
  rw [h]
  exact containsSub_append_self t.data p.data []

/-- C1: for every AgentCreate input, POST /api/agent succeeds with status
201 and returns an AgentResponse whose id is "agent-" followed by the first
8 characters of face_id (the whole face_id when it is shorter than 8), and
whose face_id and name echo the input. -/
theorem c1_create_agent_response (agent : AgentCreate)
    (upstream : OutboundCall → UpstreamResponse) :
    create_agent agent upstream =
      ([], (201,
        { id := "agent-" ++
            (if agent.face_id.length < 8 then agent.face_id
             else String.mk (agent.face_id.data.take 8)),
          face_id := agent.face_id,
          name := agent.name })) := by
  unfold create_agent pythonTake
  by_cases h : agent.face_id.length < 8
  · rw [if_pos h]
    have hlen : agent.face_id.data.length ≤ 8 := Nat.le_of_lt h
    rw [List.take_of_length_le hlen]
  · rw [if_neg h]

/-- Witness for C1 at a concrete input with a 10-character face id. -/
theorem c1_create_agent_response_witness :
    create_agent { face_id := "abcdefghij", name := "Agent A" }
        (fun _ => ⟨200, "", Json.null⟩) =
      ([], (201,
        { id := "agent-" ++
            (if ("abcdefghij" : String).length < 8 then ("abcdefghij" : String)
             else String.mk (("abcdefghij" : String).data.take 8)),
          face_id := "abcdefghij",
          name := "Agent A" })) :=
  c1_create_agent_response { face_id := "abcdefghij", name := "Agent A" }
    (fun _ => ⟨200, "", Json.null⟩)

/-- C5: handling POST /api/agent performs no outbound call and is a pure
function of its input: the call list is empty and the result does not
depend on the upstream environment at all. -/
theorem c5_create_agent_no_outbound (agent : AgentCreate)
    (u1 u2 : OutboundCall → UpstreamResponse) :
    (create_agent agent u1).1 = [] ∧ create_agent agent u1 = create_agent agent u2 :=
  ⟨rfl, rfl⟩

/-- Witness for C5 at a concrete input and two different environments. -/
theorem c5_create_agent_no_outbound_witness :
    (create_agent { face_id := "f", name := "N" } (fun _ => ⟨200, "", Json.null⟩)).1 = [] ∧
    create_agent { face_id := "f", name := "N" } (fun _ => ⟨200, "", Json.null⟩) =
      create_agent { face_id := "f", name := "N" } (fun _ => ⟨500, "boom", Json.str "x"⟩) :=
  c5_create_agent_no_outbound { face_id := "f", name := "N" }
    (fun _ => ⟨200, "", Json.null⟩) (fun _ => ⟨500, "boom", Json.str "x"⟩)

/-- C10: the response of POST /api/agent depends only on face_id and name:
two inputs agreeing on those two fields produce identical results, whatever
the other nine fields hold. -/
theorem c10_agent_depends_only_on_face_id_name (a b : AgentCreate)
    (u : OutboundCall → UpstreamResponse)
    (hface : a.face_id = b.face_id) (hname : a.name = b.name) :
    create_agent a u = create_agent b u := by
  unfold create_agent pythonTake
  rw [hface, hname]

/-- Witness for C10 at two concrete inputs differing in every optional
field. -/
theorem c10_agent_depends_only_on_face_id_name_witness :
    create_agent
        { face_id := "face-12345", name := "Untitled Agent",
          first_message := some "hi", prompt := some "p1" }
        (fun _ => ⟨200, "", Json.null⟩) =
      create_agent
        { face_id := "face-12345", name := "Untitled Agent",
          voice_provider := some "cartesia", voice_id := some "v9",
          voice_model := some "sonic-english", language := some "en",
          llm_endpoint := some "http://x", max_idle_time := some 7,
          max_session_length := some 9 }
        (fun _ => ⟨200, "", Json.null⟩) :=
  c10_agent_depends_only_on_face_id_name _ _ _ rfl rfl

/-- C7: with either environment variable unset, startup still succeeds and
the server serves requests: the missing key is replaced by its hardcoded
placeholder, the corresponding warning is emitted, and the root route still
answers 200. -/
theorem c7_missing_env_fallback (e : Option String) :
    (loadConfig none e).SIMLI_API_KEY = "YOUR_API_KEY_HERE" ∧
    "Warning: SIMLI_API_KEY not found in environment variables. Using default value for testing."
      ∈ (loadConfig none e).warnings ∧
    (loadConfig e none).TTS_API_KEY = "YOUR_TTS_API_KEY_HERE" ∧
    "Warning: TTS_API_KEY not found in environment variables. Using default value for testing."
      ∈ (loadConfig e none).warnings ∧
    (get_html (loadConfig none e)).1 = 200 ∧
    (get_html (loadConfig e none)).1 = 200 := by
  refine ⟨rfl, ?_, rfl, ?_, rfl, rfl⟩
  · simp [loadConfig, pyFalsy]
  · simp [loadConfig, pyFalsy]

/-- Witness for C7 at a concrete environment with both variables unset on
the relevant side. -/
theorem c7_missing_env_fallback_witness :
    (loadConfig none (some "tts-env")).SIMLI_API_KEY = "YOUR_API_KEY_HERE" ∧
    "Warning: SIMLI_API_KEY not found in environment variables. Using default value for testing."
      ∈ (loadConfig none (some "tts-env")).warnings ∧
    (loadConfig (some "tts-env") none).TTS_API_KEY = "YOUR_TTS_API_KEY_HERE" ∧
    "Warning: TTS_API_KEY not found in environment variables. Using default value for testing."
      ∈ (loadConfig (some "tts-env") none).warnings ∧
    (get_html (loadConfig none (some "tts-env"))).1 = 200 ∧
    (get_html (loadConfig (some "tts-env") none)).1 = 200 :=
  c7_missing_env_fallback (some "tts-env")

/-- C3: any upstream non-2xx response, on face listing or token creation,
is propagated with the same status code and an error detail containing the
upstream response text as a substring. -/
theorem c3_upstream_error_propagation (cfg : Config) (r : SessionTokenRequest)
    (u : OutboundCall → UpstreamResponse) (resp : UpstreamResponse)
    (hnon2xx : resp.status_code < 200 ∨ 300 ≤ resp.status_code)
    (hfaces : u (get_faces_request cfg) = resp)
    (htoken : u (create_e2e_session_token_request r) = resp) :
    ((get_faces cfg u).2 =
        .httpError resp.status_code ("Error fetching faces from Simli API: " ++ resp.text)) ∧
    strContains ("Error fetching faces from Simli API: " ++ resp.text) resp.text = true ∧
    ((create_e2e_session_token r u).2 =
        .httpError resp.status_code ("Error creating session token: " ++ resp.text)) ∧
    strContains ("Error creating session token: " ++ resp.text) resp.text = true := by
  have hne : resp.status_code ≠ 200 := by omega
  refine ⟨?_, strContains_append _ _, ?_, strContains_append _ _⟩
  · unfold get_faces
    rw [hfaces]
    simp [hne]
  · unfold create_e2e_session_token
    rw [htoken]
    simp [hne]

/-- Witness for C3 at a concrete 404 upstream response. -/
theorem c3_upstream_error_propagation_witness :
    ((get_faces ⟨"k", "t", []⟩ (fun _ => ⟨404, "upstream says no", Json.null⟩)).2 =
        .httpError 404 ("Error fetching faces from Simli API: " ++ "upstream says no")) ∧
    strContains ("Error fetching faces from Simli API: " ++ "upstream says no")
      "upstream says no" = true ∧
    ((create_e2e_session_token ⟨"a", "b"⟩ (fun _ => ⟨404, "upstream says no", Json.null⟩)).2 =
        .httpError 404 ("Error creating session token: " ++ "upstream says no")) ∧
    strContains ("Error creating session token: " ++ "upstream says no")
      "upstream says no" = true :=
  c3_upstream_error_propagation ⟨"k", "t", []⟩ ⟨"a", "b"⟩
    (fun _ => ⟨404, "upstream says no", Json.null⟩) ⟨404, "upstream says no", Json.null⟩
    (by decide) rfl rfl

/-- C8: both proxy handlers treat every status other than exactly 200 as a
failure, so a 2xx upstream status in 201..299 is turned into an HTTP error
carrying that status instead of a successful pass-through. -/
theorem c8_non200_2xx_treated_as_error (cfg : Config) (r : SessionTokenRequest)
    (u : OutboundCall → UpstreamResponse) (resp : UpstreamResponse)
    (hlo : 201 ≤ resp.status_code) (hhi : resp.status_code ≤ 299)
    (hfaces : u (get_faces_request cfg) = resp)
    (htoken : u (create_e2e_session_token_request r) = resp) :
    ((get_faces cfg u).2 =
        .httpError resp.status_code ("Error fetching faces from Simli API: " ++ resp.text)) ∧
    ((create_e2e_session_token r u).2 =
        .httpError resp.status_code ("Error creating session token: " ++ resp.text)) := by
  have hne : resp.status_code ≠ 200 := by omega
  constructor
  · unfold get_faces
    rw [hfaces]
    simp [hne]
  · unfold create_e2e_session_token
    rw [htoken]
    simp [hne]

/-- Witness for C8 at a concrete 204 upstream response. -/
theorem c8_non200_2xx_treated_as_error_witness :
    ((get_faces ⟨"k", "t", []⟩ (fun _ => ⟨204, "no content", Json.arr []⟩)).2 =
        .httpError 204 ("Error fetching faces from Simli API: " ++ "no content")) ∧
    ((create_e2e_session_token ⟨"a", "b"⟩ (fun _ => ⟨204, "no content", Json.arr []⟩)).2 =
        .httpError 204 ("Error creating session token: " ++ "no content")) :=
  c8_non200_2xx_treated_as_error ⟨"k", "t", []⟩ ⟨"a", "b"⟩
    (fun _ => ⟨204, "no content", Json.arr []⟩) ⟨204, "no content", Json.arr []⟩
    (by decide) (by decide) rfl rfl

/-- C2 (amended): for an upstream response with status exactly 200 whose
JSON body is an array of objects in canonical FaceOption form, GET
/api/faces returns exactly that JSON body. -/
theorem c2_faces_passthrough_200 (cfg : Config)
    (u : OutboundCall → UpstreamResponse) (faces : List FaceOption)
    (hstatus : (u (get_faces_request cfg)).status_code = 200)
    (hbody : (u (get_faces_request cfg)).json = Json.arr (faces.map FaceOption.toJson)) :
    get_faces cfg u =
      ([get_faces_request cfg], .success 200 ((u (get_faces_request cfg)).json)) := by
  simp only [get_faces]
  rw [hbody, hstatus]
  simp [validateFaces, validateFaceList_map_toJson]

/-- Witness for C2 (amended) at a concrete canonical 200 response. -/
theorem c2_faces_passthrough_200_witness :
    get_faces ⟨"k", "t", []⟩
        (fun _ => ⟨200, "",
          Json.arr ([FaceOption.mk "f-1" "Alice" "http://img" (some "http://vid") (some 5)].map
            FaceOption.toJson)⟩) =
      ([get_faces_request ⟨"k", "t", []⟩],
        .success 200
          (Json.arr ([FaceOption.mk "f-1" "Alice" "http://img" (some "http://vid") (some 5)].map
            FaceOption.toJson))) :=
  c2_faces_passthrough_200 ⟨"k", "t", []⟩
    (fun _ => ⟨200, "",
      Json.arr ([FaceOption.mk "f-1" "Alice" "http://img" (some "http://vid") (some 5)].map
        FaceOption.toJson)⟩)
    [FaceOption.mk "f-1" "Alice" "http://img" (some "http://vid") (some 5)] rfl rfl

/-- Counterexample to C2 as stated: a successful (2xx) upstream response
with status 201 and body [] is not passed through; the endpoint raises an
error instead of returning the body. -/
theorem c2_faces_passthrough_counterexample :
    (get_faces ⟨"k", "t", []⟩ (fun _ => ⟨201, "created", Json.arr []⟩)).2 ≠
      HandlerResult.success 201 (Json.arr []) := by
  intro h
  have h2 : HandlerResult.httpError 201 ("Error fetching faces from Simli API: " ++ "created") =
      HandlerResult.success 201 (Json.arr []) := h
  exact HandlerResult.noConfusion h2

/-- C4 (amended): the session-token endpoint POSTs to the upstream URL a
JSON body holding exactly the caller's two key fields; when the upstream
answers 200 with a body consisting of exactly a string field session_token,
that body is returned unmodified. -/
theorem c4_session_token_forward (r : SessionTokenRequest)
    (u : OutboundCall → UpstreamResponse) (tok : String)
    (hstatus : (u (create_e2e_session_token_request r)).status_code = 200)
    (hbody : (u (create_e2e_session_token_request r)).json =
      Json.obj [("session_token", Json.str tok)]) :
    (create_e2e_session_token_request r =
      .post "https://api.simli.ai/createE2ESessionToken"
        (Json.obj [("simliAPIKey", .str r.simliAPIKey), ("ttsAPIKey", .str r.ttsAPIKey)])) ∧
    create_e2e_session_token r u =
      ([create_e2e_session_token_request r],
        .success 200 ((u (create_e2e_session_token_request r)).json)) := by
  refine ⟨rfl, ?_⟩
  simp only [create_e2e_session_token]
  rw [hbody, hstatus]
  simp [SessionTokenResponse.validate, reqStrField, Json.lookup, Json.asStr,
    SessionTokenResponse.toJson]

/-- Witness for C4 (amended) at a concrete 200 response. -/
theorem c4_session_token_forward_witness :
    (create_e2e_session_token_request ⟨"caller-simli", "caller-tts"⟩ =
      .post "https://api.simli.ai/createE2ESessionToken"
        (Json.obj [("simliAPIKey", .str "caller-simli"), ("ttsAPIKey", .str "caller-tts")])) ∧
    create_e2e_session_token ⟨"caller-simli", "caller-tts"⟩
        (fun _ => ⟨200, "", Json.obj [("session_token", Json.str "tok-1")]⟩) =
      ([create_e2e_session_token_request ⟨"caller-simli", "caller-tts"⟩],
        .success 200 (Json.obj [("session_token", Json.str "tok-1")])) :=
  c4_session_token_forward ⟨"caller-simli", "caller-tts"⟩
    (fun _ => ⟨200, "", Json.obj [("session_token", Json.str "tok-1")]⟩) "tok-1" rfl rfl

/-- Counterexample to C4 as stated: a 200 upstream body carrying an extra
field next to session_token is not returned unmodified; serialization
through SessionTokenResponse drops the extra field. -/
theorem c4_session_token_counterexample :
    (create_e2e_session_token ⟨"a", "b"⟩
        (fun _ => ⟨200, "",
          Json.obj [("session_token", Json.str "tok"), ("extraField", Json.num 1)]⟩)).2 ≠
      HandlerResult.success 200
        (Json.obj [("session_token", Json.str "tok"), ("extraField", Json.num 1)]) := by
  intro h
  have h2 : HandlerResult.success 200 (Json.obj [("session_token", Json.str "tok")]) =
      HandlerResult.success 200
        (Json.obj [("session_token", Json.str "tok"), ("extraField", Json.num 1)]) := h
  simp at h2

/-- A JSON object's list of keys, in order (none for non-objects). -/
def jsonObjKeys : Json → Option (List String)
  | .obj fields => some (fields.map Prod.fst)
  | _ => none

/-- SessionTokenResponse validation succeeds on any object carrying a
string session_token field, wherever it sits among the other fields. -/
theorem SessionTokenResponse.validate_lookup (fs : List (String × Json)) (tok : String)
    (h : List.lookup "session_token" fs = some (Json.str tok)) :
    SessionTokenResponse.validate (Json.obj fs) = some { session_token := tok } := by
  simp [SessionTokenResponse.validate, reqStrField, Json.lookup, h, Json.asStr]

/-- SessionTokenResponse validation fails on any object without a
session_token field. -/
theorem SessionTokenResponse.validate_none (fs : List (String × Json))
    (h : List.lookup "session_token" fs = none) :
    SessionTokenResponse.validate (Json.obj fs) = none := by
  simp [SessionTokenResponse.validate, reqStrField, Json.lookup, h]

/-- FaceOption validation fails on any object missing one of the required
fields id, name, previewImage, whatever the other fields are. -/
theorem FaceOption.validate_none_of_missing (fs : List (String × Json))
    (h : List.lookup "id" fs = none ∨ List.lookup "name" fs = none ∨
      List.lookup "previewImage" fs = none) :
    FaceOption.validate (Json.obj fs) = none := by
  rcases h with h | h | h
  · simp [FaceOption.validate, reqStrField, Json.lookup, h]
  · cases hid : reqStrField (Json.obj fs) "id" <;>
      simp [FaceOption.validate, hid, reqStrField, Json.lookup, h]
  · cases hid : reqStrField (Json.obj fs) "id" <;>
      cases hname : reqStrField (Json.obj fs) "name" <;>
        simp [FaceOption.validate, hid, hname, reqStrField, Json.lookup, h]

/-- List validation fails as soon as any element fails, wherever it sits in
the array. -/
theorem validateFaceList_none_of_mem (elems : List Json) (badElem : Json)
    (hmem : badElem ∈ elems) (hbad : FaceOption.validate badElem = none) :
    validateFaceList elems = none := by
  induction elems with
  | nil => cases hmem
  | cons j rest ih =>
    rcases List.mem_cons.mp hmem with h | h
    · subst h
      simp [validateFaceList, hbad]
    · cases hj : FaceOption.validate j <;> simp [validateFaceList, hj, ih h]

/-- C9: successful responses are serialized through the declared response
models. For any 200 token body carrying a string session_token field
anywhere among arbitrary other fields, the response is exactly the
session_token field; for any 200 faces body (any number of elements, any
field order, extra fields anywhere, optional fields null, present or
absent) the response is the model serialization, each of whose objects
carries exactly the five model keys; and a 200 body in which any element
misses any required model field (id, name or previewImage for faces,
session_token for tokens) yields a response-validation error instead of
being forwarded. -/
theorem c9_response_model_serialization (cfg : Config) (r : SessionTokenRequest)
    (u1 u2 u3 u4 : OutboundCall → UpstreamResponse)
    (tok : String) (tokenFields : List (String × Json))
    (elems : List Json) (faces : List FaceOption) (f0 : FaceOption)
    (elems3 : List Json) (badFields : List (String × Json))
    (tokenFields4 : List (String × Json))
    (h1s : (u1 (create_e2e_session_token_request r)).status_code = 200)
    (h1b : (u1 (create_e2e_session_token_request r)).json = Json.obj tokenFields)
    (h1k : List.lookup "session_token" tokenFields = some (Json.str tok))
    (h2s : (u2 (get_faces_request cfg)).status_code = 200)
    (h2b : (u2 (get_faces_request cfg)).json = Json.arr elems)
    (h2v : validateFaceList elems = some faces)
    (h3s : (u3 (get_faces_request cfg)).status_code = 200)
    (h3b : (u3 (get_faces_request cfg)).json = Json.arr elems3)
    (h3mem : Json.obj badFields ∈ elems3)
    (h3miss : List.lookup "id" badFields = none ∨ List.lookup "name" badFields = none ∨
      List.lookup "previewImage" badFields = none)
    (h4s : (u4 (create_e2e_session_token_request r)).status_code = 200)
    (h4b : (u4 (create_e2e_session_token_request r)).json = Json.obj tokenFields4)
    (h4k : List.lookup "session_token" tokenFields4 = none) :
    ((create_e2e_session_token r u1).2 =
        .success 200 (Json.obj [("session_token", Json.str tok)])) ∧
    ((get_faces cfg u2).2 = .success 200 (Json.arr (faces.map FaceOption.toJson))) ∧
    (jsonObjKeys (FaceOption.toJson f0) =
        some ["id", "name", "previewImage", "previewVideo", "createdAt"]) ∧
    ((get_faces cfg u3).2 = .validationError) ∧
    ((create_e2e_session_token r u4).2 = .validationError) := by
  refine ⟨?_, ?_, rfl, ?_, ?_⟩
  · simp only [create_e2e_session_token]
    rw [h1b, h1s]
    simp [SessionTokenResponse.validate_lookup tokenFields tok h1k,
      SessionTokenResponse.toJson]
  · simp only [get_faces]
    rw [h2b, h2s]
    simp [validateFaces, h2v]
  · simp only [get_faces]
    rw [h3b, h3s]
    have hlist : validateFaceList elems3 = none :=
      validateFaceList_none_of_mem elems3 (Json.obj badFields) h3mem
        (FaceOption.validate_none_of_missing badFields h3miss)
    simp [validateFaces, hlist]
  · simp only [create_e2e_session_token]
    rw [h4b, h4s]
    simp [SessionTokenResponse.validate_none tokenFields4 h4k]

/-- Witness for C9 at concrete upstream responses: token extras before and
after session_token; two face objects in scrambled field order with extras
and with each optional field exercised; a missing-name element in mid
array; a token body without session_token. -/
theorem c9_response_model_serialization_witness :
    ((create_e2e_session_token ⟨"a", "b"⟩
        (fun _ => ⟨200, "",
          Json.obj [("pre", Json.num 0), ("session_token", Json.str "t0"),
            ("post", Json.bool true)]⟩)).2 =
        .success 200 (Json.obj [("session_token", Json.str "t0")])) ∧
    ((get_faces ⟨"k", "t", []⟩
        (fun _ => ⟨200, "",
          Json.arr [Json.obj [("zzz", Json.num 9), ("name", Json.str "N1"),
              ("previewImage", Json.str "P1"), ("id", Json.str "f1"),
              ("previewVideo", Json.str "V1")],
            Json.obj [("createdAt", Json.num 5), ("id", Json.str "f2"),
              ("extra", Json.arr []), ("previewImage", Json.str "P2"),
              ("name", Json.str "N2")]]⟩)).2 =
        .success 200 (Json.arr
          (([FaceOption.mk "f1" "N1" "P1" (some "V1") none,
             FaceOption.mk "f2" "N2" "P2" none (some 5)]).map FaceOption.toJson))) ∧
    (jsonObjKeys (FaceOption.toJson (FaceOption.mk "f9" "N9" "P9" (some "V9") (some 3))) =
        some ["id", "name", "previewImage", "previewVideo", "createdAt"]) ∧
    ((get_faces ⟨"k", "t", []⟩
        (fun _ => ⟨200, "",
          Json.arr [Json.obj [("id", Json.str "ok"), ("name", Json.str "ok"),
              ("previewImage", Json.str "ok")],
            Json.obj [("id", Json.str "f3"), ("previewImage", Json.str "P3"),
              ("note", Json.null)]]⟩)).2 =
        .validationError) ∧
    ((create_e2e_session_token ⟨"a", "b"⟩
        (fun _ => ⟨200, "", Json.obj [("other", Json.str "x")]⟩)).2 =
        .validationError) :=
  c9_response_model_serialization ⟨"k", "t", []⟩ ⟨"a", "b"⟩
    (fun _ => ⟨200, "",
      Json.obj [("pre", Json.num 0), ("session_token", Json.str "t0"),
        ("post", Json.bool true)]⟩)
    (fun _ => ⟨200, "",
      Json.arr [Json.obj [("zzz", Json.num 9), ("name", Json.str "N1"),
          ("previewImage", Json.str "P1"), ("id", Json.str "f1"),
          ("previewVideo", Json.str "V1")],
        Json.obj [("createdAt", Json.num 5), ("id", Json.str "f2"),
          ("extra", Json.arr []), ("previewImage", Json.str "P2"),
          ("name", Json.str "N2")]]⟩)
    (fun _ => ⟨200, "",
      Json.arr [Json.obj [("id", Json.str "ok"), ("name", Json.str "ok"),
          ("previewImage", Json.str "ok")],
        Json.obj [("id", Json.str "f3"), ("previewImage", Json.str "P3"),
          ("note", Json.null)]]⟩)
    (fun _ => ⟨200, "", Json.obj [("other", Json.str "x")]⟩)
    "t0"
    [("pre", Json.num 0), ("session_token", Json.str "t0"), ("post", Json.bool true)]
    [Json.obj [("zzz", Json.num 9), ("name", Json.str "N1"),
        ("previewImage", Json.str "P1"), ("id", Json.str "f1"),
        ("previewVideo", Json.str "V1")],
      Json.obj [("createdAt", Json.num 5), ("id", Json.str "f2"),
        ("extra", Json.arr []), ("previewImage", Json.str "P2"),
        ("name", Json.str "N2")]]
    [FaceOption.mk "f1" "N1" "P1" (some "V1") none,
      FaceOption.mk "f2" "N2" "P2" none (some 5)]
    (FaceOption.mk "f9" "N9" "P9" (some "V9") (some 3))
    [Json.obj [("id", Json.str "ok"), ("name", Json.str "ok"),
        ("previewImage", Json.str "ok")],
      Json.obj [("id", Json.str "f3"), ("previewImage", Json.str "P3"),
        ("note", Json.null)]]
    [("id", Json.str "f3"), ("previewImage", Json.str "P3"), ("note", Json.null)]
    [("other", Json.str "x")]
    rfl rfl rfl rfl rfl rfl rfl rfl
    (List.mem_cons_of_mem _ (List.mem_cons_self _ _))
    (Or.inr (Or.inl rfl))
    rfl rfl rfl

/-- Shape of the template after the first substitution pass: every
occurrence of "SIMLI_API_KEY" is replaced by the configured value v1, and
nothing else changes (the replacement is never rescanned). -/
theorem replace_simli_tplData (v1 : List Char) :
    replaceL simliPat.data v1 tplData =
      segAd ++ dq :: v1 ++ dq :: segBd ++ dq :: ttsPat.data ++ dq :: segCd
        ++ sq :: v1 ++ sq :: segDd := by
  unfold tplData
  simp only [List.cons_append, List.append_assoc]
  rw [replaceL_append_cons _ _ simliPat_ne_nil dq_not_mem_simliPat noSimli_segAd,
      replaceL_self_append simliPat_ne_nil,
      replaceL_cons_barrier _ _ simliPat_ne_nil dq_not_mem_simliPat,
      replaceL_append_cons _ _ simliPat_ne_nil dq_not_mem_simliPat noSimli_segBd,
      replaceL_append_cons _ _ simliPat_ne_nil dq_not_mem_simliPat noSimli_ttsPat,
      replaceL_append_cons _ _ simliPat_ne_nil sq_not_mem_simliPat noSimli_segCd,
      replaceL_self_append simliPat_ne_nil,
      replaceL_cons_barrier _ _ simliPat_ne_nil sq_not_mem_simliPat,
      replaceL_of_not_contains _ noSimli_segDd]

/-- Shape of the document after the second substitution pass, provided the
first substituted value does not itself contain "TTS_API_KEY". -/
theorem replace_tts_doc (v1 v2 : List Char)
    (hv1 : containsSub ttsPat.data v1 = false) :
    replaceL ttsPat.data v2
        (segAd ++ dq :: v1 ++ dq :: segBd ++ dq :: ttsPat.data ++ dq :: segCd
          ++ sq :: v1 ++ sq :: segDd) =
      segAd ++ dq :: v1 ++ dq :: segBd ++ dq :: v2 ++ dq :: segCd
        ++ sq :: v1 ++ sq :: segDd := by
  simp only [List.cons_append, List.append_assoc]
  rw [replaceL_append_cons _ _ ttsPat_ne_nil dq_not_mem_ttsPat noTts_segAd,
      replaceL_append_cons _ _ ttsPat_ne_nil dq_not_mem_ttsPat hv1,
      replaceL_append_cons _ _ ttsPat_ne_nil dq_not_mem_ttsPat noTts_segBd,
      replaceL_self_append ttsPat_ne_nil,
      replaceL_cons_barrier _ _ ttsPat_ne_nil dq_not_mem_ttsPat,
      replaceL_append_cons _ _ ttsPat_ne_nil sq_not_mem_ttsPat noTts_segCd,
      replaceL_append_cons _ _ ttsPat_ne_nil sq_not_mem_ttsPat hv1,
      replaceL_of_not_contains _ noTts_segDd]

/-- Character data of the page served by GET /, provided the configured
SIMLI key does not contain the literal "TTS_API_KEY". -/
theorem get_html_data (cfg : Config)
    (hv1 : containsSub ttsPat.data cfg.SIMLI_API_KEY.data = false) :
    (get_html cfg).2.data =
      segAd ++ dq :: cfg.SIMLI_API_KEY.data ++ dq :: segBd
        ++ dq :: cfg.TTS_API_KEY.data ++ dq :: segCd
        ++ sq :: cfg.SIMLI_API_KEY.data ++ sq :: segDd := by
  show replaceL ttsPat.data cfg.TTS_API_KEY.data
      (replaceL simliPat.data cfg.SIMLI_API_KEY.data tplData) = _
  rw [replace_simli_tplData, replace_tts_doc _ _ hv1]

/-- A barrier character at the head of an occurrence scan can be dropped. -/
theorem containsSub_cons_barrier {pat : List Char} {c : Char} (R : List Char)
    (hpat : pat ≠ []) (hc : c ∉ pat) :
    containsSub pat (c :: R) = containsSub pat R := by
  have h := containsSub_append_cons ([] : List Char) R hpat hc
  have hie : pat.isEmpty = false := by
    cases pat with
    | nil => exact absurd rfl hpat
    | cons p l => rfl
  simpa [containsSub, hie] using h

/-- A list occurring between two known context lists is a substring. -/
theorem containsSub_of_middle (pat X Y : List Char) :
    containsSub pat (X ++ (pat ++ Y)) = true := by
  have h := containsSub_append_self pat X Y
  rwa [List.append_assoc] at h

/-- C6 (amended): for every pair of configured secret values such that the
SIMLI key does not contain the literal text "TTS_API_KEY", GET / returns
status 200 and an HTML document containing both secret values verbatim as
substrings (substituted for the placeholders in the markup and script). -/
theorem c6_page_leaks_secrets (cfg : Config)
    (hnotts : containsSub ttsPat.data cfg.SIMLI_API_KEY.data = false) :
    (get_html cfg).1 = 200 ∧
    strContains (get_html cfg).2 cfg.SIMLI_API_KEY = true ∧
    strContains (get_html cfg).2 cfg.TTS_API_KEY = true := by
  refine ⟨rfl, ?_, ?_⟩
  · show containsSub cfg.SIMLI_API_KEY.data (get_html cfg).2.data = true
    rw [get_html_data cfg hnotts]
    have hshape :
        segAd ++ dq :: cfg.SIMLI_API_KEY.data ++ dq :: segBd
            ++ dq :: cfg.TTS_API_KEY.data ++ dq :: segCd
            ++ sq :: cfg.SIMLI_API_KEY.data ++ sq :: segDd =
          (segAd ++ [dq]) ++ (cfg.SIMLI_API_KEY.data
            ++ (dq :: segBd ++ dq :: cfg.TTS_API_KEY.data ++ dq :: segCd
              ++ sq :: cfg.SIMLI_API_KEY.data ++ sq :: segDd)) := by
      simp
    rw [hshape]
    exact containsSub_of_middle _ _ _
  · show containsSub cfg.TTS_API_KEY.data (get_html cfg).2.data = true
    rw [get_html_data cfg hnotts]
    have hshape :
        segAd ++ dq :: cfg.SIMLI_API_KEY.data ++ dq :: segBd
            ++ dq :: cfg.TTS_API_KEY.data ++ dq :: segCd
            ++ sq :: cfg.SIMLI_API_KEY.data ++ sq :: segDd =
          (segAd ++ dq :: cfg.SIMLI_API_KEY.data ++ dq :: segBd ++ [dq])
            ++ (cfg.TTS_API_KEY.data
              ++ (dq :: segCd ++ sq :: cfg.SIMLI_API_KEY.data ++ sq :: segDd)) := by
      simp
    rw [hshape]
    exact containsSub_of_middle _ _ _

/-- Witness for C6 (amended) at a concrete pair of secrets. -/
theorem c6_page_leaks_secrets_witness :
    (get_html ⟨"sk-demo-123", "tts-demo-456", []⟩).1 = 200 ∧
    strContains (get_html ⟨"sk-demo-123", "tts-demo-456", []⟩).2 "sk-demo-123" = true ∧
    strContains (get_html ⟨"sk-demo-123", "tts-demo-456", []⟩).2 "tts-demo-456" = true :=
  c6_page_leaks_secrets ⟨"sk-demo-123", "tts-demo-456", []⟩ (by decide)

/-- Counterexample to C6 as stated: with SIMLI key "TTS_API_KEY" and TTS
key "Z", the served page does not contain the SIMLI key value at all: the
second replace pass rewrites every copy that the first pass inserted. -/
theorem c6_page_leaks_secrets_counterexample :
    strContains (get_html ⟨"TTS_API_KEY", "Z", []⟩).2 "TTS_API_KEY" = false := by
  show containsSub ttsPat.data (get_html ⟨"TTS_API_KEY", "Z", []⟩).2.data = false
  have hdata : (get_html ⟨"TTS_API_KEY", "Z", []⟩).2.data =
      segAd ++ dq :: ("Z").data ++ dq :: segBd ++ dq :: ("Z").data ++ dq :: segCd
        ++ sq :: ("Z").data ++ sq :: segDd := by
    show replaceL ttsPat.data ("Z").data
        (replaceL simliPat.data ttsPat.data tplData) = _
    rw [replace_simli_tplData]
    simp only [List.cons_append, List.append_assoc]
    rw [replaceL_append_cons _ _ ttsPat_ne_nil dq_not_mem_ttsPat noTts_segAd,
        replaceL_self_append ttsPat_ne_nil,
        replaceL_cons_barrier _ _ ttsPat_ne_nil dq_not_mem_ttsPat,
        replaceL_append_cons _ _ ttsPat_ne_nil dq_not_mem_ttsPat noTts_segBd,
        replaceL_self_append ttsPat_ne_nil,
        replaceL_cons_barrier _ _ ttsPat_ne_nil dq_not_mem_ttsPat,
        replaceL_append_cons _ _ ttsPat_ne_nil sq_not_mem_ttsPat noTts_segCd,
        replaceL_self_append ttsPat_ne_nil,
        replaceL_cons_barrier _ _ ttsPat_ne_nil sq_not_mem_ttsPat,
        replaceL_of_not_contains _ noTts_segDd]
    simp
  rw [hdata]
  simp only [List.cons_append, List.append_assoc, List.nil_append]
  rw [containsSub_append_cons _ _ ttsPat_ne_nil dq_not_mem_ttsPat,
      containsSub_cons_barrier _ ttsPat_ne_nil (show ('Z' : Char) ∉ ttsPat.data by decide),
      containsSub_cons_barrier _ ttsPat_ne_nil dq_not_mem_ttsPat,
      containsSub_append_cons _ _ ttsPat_ne_nil dq_not_mem_ttsPat,
      containsSub_cons_barrier _ ttsPat_ne_nil (show ('Z' : Char) ∉ ttsPat.data by decide),
      containsSub_cons_barrier _ ttsPat_ne_nil dq_not_mem_ttsPat,
      containsSub_append_cons _ _ ttsPat_ne_nil sq_not_mem_ttsPat,
      containsSub_cons_barrier _ ttsPat_ne_nil (show ('Z' : Char) ∉ ttsPat.data by decide),
      containsSub_cons_barrier _ ttsPat_ne_nil sq_not_mem_ttsPat,
      noTts_segAd, noTts_segBd, noTts_segCd, noTts_segDd]
  decide

end Simli
